import Mathlib

/-!
Shallow embedding of the telemetry sampling core of
`src/cj_resource_monitor.py` (the CJ Resource Monitor).

Conventions of the embedding:
* Python floats are modelled as exact rationals (`ℚ`); every numeric
  literal of the source (`0.3`, `10 * 1024 * 1024`, ...) is carried over
  as the corresponding rational.
* OS byte counters (`psutil.net_io_counters()` fields) are integers.
* A raised Python exception is `Except.error ()`; a call that returns
  normally is `Except.ok`.
* The module-level flag `LHM_AVAILABLE` is passed in as a `Bool` and
  returned alongside the result of `get_gpu_usage`, mirroring the fact
  that the function body never assigns it.
-/

namespace CJResourceMonitor

/-- Network byte counters, the two fields of `psutil.net_io_counters()`
read by the monitor (`bytes_sent`, `bytes_recv`). -/
structure NetCounters where
  bytes_sent : ℤ
  bytes_recv : ℤ
deriving DecidableEq, Repr

/-- The network-rate section of `MonitorWindow.update_stats`
(`src/cj_resource_monitor.py` lines 543-554).  From the stored previous
counters and timestamp and the just-read current ones it computes the
pair `(total_bytes_per_sec, net_percent)`.  `total_bytes_per_sec` is
initialised to `0` and only assigned inside the `time_diff > 0` branch,
exactly as in the source. -/
def netCompute (last_net : NetCounters) (last_time : ℚ)
    (net_current : NetCounters) (current_time : ℚ) : ℚ × ℚ :=
  let time_diff := current_time - last_time
  if 0 < time_diff then
    let bytes_sent_per_sec : ℚ :=
      ((net_current.bytes_sent - last_net.bytes_sent : ℤ) : ℚ) / time_diff
    let bytes_recv_per_sec : ℚ :=
      ((net_current.bytes_recv - last_net.bytes_recv : ℤ) : ℚ) / time_diff
    let total_bytes_per_sec := bytes_sent_per_sec + bytes_recv_per_sec
    (total_bytes_per_sec, min (total_bytes_per_sec / (10 * 1024 * 1024) * 100) 100)
  else
    (0, 0)

/-- `CircularMeter.set_value` clamping (`src/cj_resource_monitor.py`
line 86): `max(0.0, min(100.0, float(percent)))`. -/
def set_value_clamped (percent : ℚ) : ℚ := max 0 (min 100 percent)

/-- Sensor category of the hardware backend; the monitor only
distinguishes `Load` sensors from everything else. -/
inductive SensorType where
  | Load : SensorType
  | Other : SensorType
deriving DecidableEq, Repr

/-- Whether a sensor type is the load category
(`sensor.SensorType == Hardware.SensorType.Load`). -/
def isLoad : SensorType → Bool
  | .Load => true
  | .Other => false

/-- One backend sensor: name (the source substitutes `""` for a null
name), category, and nullable numeric value. -/
structure Sensor where
  name : String
  sensorType : SensorType
  value : Option ℚ
deriving DecidableEq, Repr

/-- Hardware type tag; the monitor checks membership in the three GPU
vendor tags (`GpuNvidia`, `GpuAmd`, `GpuIntel`). -/
inductive HardwareType where
  | GpuNvidia : HardwareType
  | GpuAmd : HardwareType
  | GpuIntel : HardwareType
  | Other : HardwareType
deriving DecidableEq, Repr

/-- The membership test of line 453:
`hw.HardwareType in (GpuNvidia, GpuAmd, GpuIntel)`. -/
def isGpuType : HardwareType → Bool
  | .GpuNvidia => true
  | .GpuAmd => true
  | .GpuIntel => true
  | .Other => false

/-- One backend hardware device with its sensors in backend-reported
order. -/
structure HardwareDevice where
  hwType : HardwareType
  name : String
  sensors : List Sensor
deriving DecidableEq, Repr

/-- All suffixes of a character list, longest first. -/
def suffixes : List Char → List (List Char)
  | [] => [[]]
  | c :: rest => (c :: rest) :: suffixes rest

/-- Whether `pat` occurs as a contiguous sublist of `l`
(the Python `in` test on strings). -/
def listIsInfixOf (pat l : List Char) : Bool :=
  (suffixes l).any fun t => pat.isPrefixOf t

/-- The keyword list of line 472. -/
def gpuKeywords : List String := ["gpu", "core", "load", "3d", "graphics"]

/-- The keyword filter of lines 471-472:
`any(keyword in sensor_name.lower() for keyword in [...])`. -/
def matchesKeyword (name : String) : Bool :=
  gpuKeywords.any fun kw => listIsInfixOf kw.data (name.data.map Char.toLower)

/-- The keyword-scan loop of lines 461-474: fold over the sensors,
replacing the accumulator by `max(gpu_percent, float(sensor.Value))`
for every load-type sensor with a non-null value whose name passes the
keyword filter. -/
def scanSensors (gp : ℚ) : List Sensor → ℚ
  | [] => gp
  | s :: rest =>
    match s.value with
    | some v =>
      if isLoad s.sensorType && matchesKeyword s.name then
        scanSensors (max gp v) rest
      else
        scanSensors gp rest
    | none => scanSensors gp rest

/-- The fallback loop of lines 478-483: the value of the first
load-type sensor with a non-null value, if any. -/
def firstLoadValue : List Sensor → Option ℚ
  | [] => none
  | s :: rest =>
    match s.value with
    | some v => if isLoad s.sensorType then some v else firstLoadValue rest
    | none => firstLoadValue rest

/-- Processing of one GPU-type device (lines 461-483): run the keyword
scan; if the accumulator is `0.0` afterwards, take the first load-type
sensor value instead (when one exists). -/
def deviceCandidate (gp : ℚ) (sensors : List Sensor) : ℚ :=
  let gp1 := scanSensors gp sensors
  if gp1 = 0 then
    match firstLoadValue sensors with
    | some v => v
    | none => gp1
  else gp1

/-- The device loop of lines 449-486: skip non-GPU devices, thread
`gpu_percent` and `gpu_name` through GPU devices, and break as soon as
`gpu_percent > 0`. -/
def deviceLoop (gp : ℚ) (name : String) : List HardwareDevice → ℚ × String
  | [] => (gp, name)
  | hw :: rest =>
    if isGpuType hw.hwType then
      let gp2 := deviceCandidate gp hw.sensors
      if 0 < gp2 then (gp2, hw.name) else deviceLoop gp2 hw.name rest
    else deviceLoop gp name rest

/-- Result of one `get_gpu_usage` call.  `lhm_available` is the value
of the module-level flag after the call; the function body never
assigns the flag, so the field equals the input flag. -/
structure GpuCallResult where
  gpu_percent : ℚ
  gpu_name : String
  lhm_available : Bool
deriving DecidableEq, Repr

/-- `MonitorWindow.get_gpu_usage` (lines 442-498).  `enumerated` is the
outcome of the backend interaction inside the `try` block: `.error ()`
models an exception raised during device enumeration or sensor reading,
in which case the handler sets `gpu_percent = 0.0` (line 490).  When
`gpu_percent` is still `0.0` at line 493, the CPU heuristic
`min(cpu_percent * 0.3, 100.0)` is used. -/
def get_gpu_usage (lhm_available : Bool)
    (enumerated : Except Unit (List HardwareDevice)) (cpu_percent : ℚ) :
    GpuCallResult :=
  let r : ℚ × String :=
    if lhm_available then
      match enumerated with
      | .ok devices => deviceLoop 0 "Integrated Graphics" devices
      | .error _ => (0, "Integrated Graphics")
    else (0, "Integrated Graphics")
  if r.1 = 0 then
    ⟨min (cpu_percent * (3 / 10)) 100, r.2, lhm_available⟩
  else
    ⟨r.1, r.2, lhm_available⟩

/-- Specification-side definition (from the spec's words, for
comparison with the code): the values of all load-type sensors with
non-null values whose names case-insensitively contain one of the GPU
keywords, in backend order. -/
def matchingValues : List Sensor → List ℚ
  | [] => []
  | s :: rest =>
    match s.value with
    | some v =>
      if isLoad s.sensorType && matchesKeyword s.name then
        v :: matchingValues rest
      else
        matchingValues rest
    | none => matchingValues rest

/-- Specification-side definition: the maximum value among the
keyword-matching load sensors, when at least one exists. -/
def specMaxMatching (sensors : List Sensor) : Option ℚ :=
  (matchingValues sensors).max?

/-- The cross-tick state of the sampler: previous network counters and
previous timestamp (`self.last_net`, `self.last_time`). -/
structure SamplerState where
  last_net : NetCounters
  last_time : ℚ
deriving DecidableEq, Repr

/-- The two fields of `psutil.virtual_memory()` the monitor reads. -/
structure MemStats where
  percent : ℚ
  total : ℤ
deriving DecidableEq, Repr

/-- The per-tick values displayed by `update_stats`. -/
structure Sample where
  cpu_percent : ℚ
  ram_percent : ℚ
  gpu_percent : ℚ
  gpu_name : String
  net_rate : ℚ
  net_percent : ℚ
deriving DecidableEq, Repr

/-- The outside world of one `update_stats` tick: each sub-component
read may raise (`Except.error ()`).  `display` stands for the meter and
system-info updates of lines 560-573, which run after the state write
and may also raise. -/
structure TickInputs where
  cpu : Except Unit ℚ
  mem : Except Unit MemStats
  gpu : Except Unit (ℚ × String)
  current_time : ℚ
  net_current : Except Unit NetCounters
  display : Except Unit Unit

/-- The `try` block of `MonitorWindow.update_stats` (lines 529-573):
read CPU, memory, GPU, time and network counters in order; compute the
network rate; overwrite `last_net`/`last_time` (lines 556-557,
unconditionally, outside the `time_diff` branch); then run the display
section.  Returns the state as mutated up to the point of return
together with either the tick's sample or the raised exception. -/
def update_stats_try (inp : TickInputs) (st : SamplerState) :
    SamplerState × Except Unit Sample :=
  match inp.cpu with
  | .error e => (st, .error e)
  | .ok cpu_percent =>
    match inp.mem with
    | .error e => (st, .error e)
    | .ok mem =>
      match inp.gpu with
      | .error e => (st, .error e)
      | .ok gpu =>
        match inp.net_current with
        | .error e => (st, .error e)
        | .ok net_current =>
          let r := netCompute st.last_net st.last_time net_current inp.current_time
          let st' : SamplerState := ⟨net_current, inp.current_time⟩
          match inp.display with
          | .error e => (st', .error e)
          | .ok _ => (st', .ok ⟨cpu_percent, mem.percent, gpu.1, gpu.2, r.1, r.2⟩)

/-- `MonitorWindow.update_stats` with its `try/except` (lines 527-576):
any exception from the body is caught and only logged (the `Bool`
records whether the handler ran); the call always returns normally. -/
def update_stats (inp : TickInputs) (st : SamplerState) : SamplerState × Bool :=
  match update_stats_try inp st with
  | (st', .ok _) => (st', false)
  | (st', .error _) => (st', true)

/-! ### Helper lemmas -/

/-- Folding `max` from `max a b` pulls `a` out of the fold. -/
lemma foldl_max_max (l : List ℚ) : ∀ a b : ℚ,
    l.foldl max (max a b) = max a (l.foldl max b) := by
  induction l with
  | nil => intro a b; rfl
  | cons c cs ih =>
    intro a b
    show cs.foldl max (max (max a b) c) = max a (cs.foldl max (max b c))
    rw [max_assoc, ih]

/-- A `max`-fold equals `max` of the seed with the list maximum. -/
lemma foldl_max_eq_max_of_max? (l : List ℚ) (a m : ℚ)
    (h : l.max? = some m) : l.foldl max a = max a m := by
  cases l with
  | nil => simp [List.max?] at h
  | cons x xs =>
    have hm : xs.foldl max x = m := by
      have : some (xs.foldl max x) = some m := h
      exact Option.some.inj this
    show xs.foldl max (max a x) = max a m
    rw [foldl_max_max, hm]

/-- The keyword-scan loop is a `max`-fold over the matching values. -/
lemma scanSensors_eq_foldl (sensors : List Sensor) : ∀ gp : ℚ,
    scanSensors gp sensors = (matchingValues sensors).foldl max gp := by
  induction sensors with
  | nil => intro gp; rfl
  | cons s rest ih =>
    intro gp
    cases hv : s.value with
    | none => simp [scanSensors, matchingValues, hv, ih]
    | some v =>
      by_cases hc : (isLoad s.sensorType && matchesKeyword s.name) = true
      · simp [scanSensors, matchingValues, hv, hc, ih]
      · simp [scanSensors, matchingValues, hv, hc, ih]

/-! ### Claim theorems -/

/-- C1 counterexample: with previous counters `(sent=1000, recv=0)` at
`t=0` and current counters `(sent=0, recv=0)` at `t=1` (a counter
reset with positive elapsed time), the computed rate is `-1000`
bytes/s — negative, not a `0` contribution. -/
theorem netCompute_negative_rate_cex :
    (netCompute ⟨1000, 0⟩ 0 ⟨0, 0⟩ 1).1 = -1000 ∧
      (netCompute ⟨1000, 0⟩ 0 ⟨0, 0⟩ 1).1 < 0 := by
  constructor <;> norm_num [netCompute]

/-- C1 (amended): the rate computation applies the raw signed counter
deltas — `rate = ((curr.sent - prev.sent) + (curr.recv - prev.recv)) / dt`
with no clamping — so when a cumulative counter resets (current below
previous) while the other does not increase, the reported rate is
negative. -/
theorem netCompute_signed_deltas (prev : NetCounters) (pt : ℚ)
    (curr : NetCounters) (ct : ℚ) (hdt : 0 < ct - pt) :
    (netCompute prev pt curr ct).1 =
      (((curr.bytes_sent - prev.bytes_sent) +
        (curr.bytes_recv - prev.bytes_recv) : ℤ) : ℚ) / (ct - pt) ∧
    (curr.bytes_sent < prev.bytes_sent → curr.bytes_recv ≤ prev.bytes_recv →
      (netCompute prev pt curr ct).1 < 0) := by
  constructor
  · simp only [netCompute, if_pos hdt]
    push_cast
    ring
  · intro hs hr
    simp only [netCompute, if_pos hdt]
    have h1 : ((curr.bytes_sent - prev.bytes_sent : ℤ) : ℚ) / (ct - pt) < 0 := by
      apply div_neg_of_neg_of_pos _ hdt
      exact_mod_cast sub_neg.mpr hs
    have h2 : ((curr.bytes_recv - prev.bytes_recv : ℤ) : ℚ) / (ct - pt) ≤ 0 := by
      apply div_nonpos_of_nonpos_of_nonneg _ (le_of_lt hdt)
      exact_mod_cast sub_nonpos.mpr hr
    exact add_neg_of_neg_of_nonpos h1 h2

/-- C1 witness: the amended theorem at the counterexample input. -/
theorem netCompute_signed_deltas_witness :
    (netCompute ⟨1000, 0⟩ 0 ⟨0, 0⟩ 1).1 =
      ((((0 : ℤ) - 1000) + ((0 : ℤ) - 0) : ℤ) : ℚ) / ((1 : ℚ) - 0) ∧
    ((0 : ℤ) < 1000 → (0 : ℤ) ≤ 0 → (netCompute ⟨1000, 0⟩ 0 ⟨0, 0⟩ 1).1 < 0) :=
  netCompute_signed_deltas ⟨1000, 0⟩ 0 ⟨0, 0⟩ 1 (by norm_num)

/-- C2 counterexample: a backend sensor reporting `150` on a load
sensor named "gpu core" makes `get_gpu_usage` return `150`, above
`100`: no clamping happens before the value is returned. -/
theorem get_gpu_usage_no_clamp_cex :
    (get_gpu_usage true
        (.ok [⟨.GpuNvidia, "Test GPU", [⟨"gpu core", .Load, some 150⟩]⟩])
        0).gpu_percent = 150 ∧
      ¬ ((get_gpu_usage true
        (.ok [⟨.GpuNvidia, "Test GPU", [⟨"gpu core", .Load, some 150⟩]⟩])
        0).gpu_percent ≤ 100) := by
  constructor <;> decide

/-- C2 (amended): `get_gpu_usage` performs no clamping — any nonzero
candidate value, including values below `0` or above `100`, is returned
unchanged; the clamp to `[0,100]` is applied later, by the display
meter's `set_value`. -/
theorem get_gpu_usage_no_clamp (v c : ℚ) (hv : v ≠ 0) :
    (get_gpu_usage true
        (.ok [⟨.GpuNvidia, "Test GPU", [⟨"gpu core", .Load, some v⟩]⟩])
        c).gpu_percent = v ∧
    (∀ p : ℚ, 0 ≤ set_value_clamped p ∧ set_value_clamped p ≤ 100) := by
  have hkw : matchesKeyword "gpu core" = true := by decide
  constructor
  · rcases lt_or_gt_of_ne hv with hneg | hpos
    · have hscan : scanSensors 0 [⟨"gpu core", .Load, some v⟩] = 0 := by
        simp [scanSensors, isLoad, hkw, max_eq_left (le_of_lt hneg)]
      have hcand : deviceCandidate 0 [⟨"gpu core", .Load, some v⟩] = v := by
        simp [deviceCandidate, hscan, firstLoadValue, isLoad]
      have hloop :
          deviceLoop 0 "Integrated Graphics"
            [⟨.GpuNvidia, "Test GPU", [⟨"gpu core", .Load, some v⟩]⟩] =
            (v, "Test GPU") := by
        simp [deviceLoop, isGpuType, hcand, not_lt.mpr (le_of_lt hneg),
          deviceLoop]
      simp [get_gpu_usage, hloop, hv]
    · have hscan : scanSensors 0 [⟨"gpu core", .Load, some v⟩] = v := by
        simp [scanSensors, isLoad, hkw, max_eq_right (le_of_lt hpos)]
      have hcand : deviceCandidate 0 [⟨"gpu core", .Load, some v⟩] = v := by
        simp [deviceCandidate, hscan, hv]
      have hloop :
          deviceLoop 0 "Integrated Graphics"
            [⟨.GpuNvidia, "Test GPU", [⟨"gpu core", .Load, some v⟩]⟩] =
            (v, "Test GPU") := by
        simp [deviceLoop, isGpuType, hcand, hpos]
      simp [get_gpu_usage, hloop, hv]
  · intro p
    refine ⟨le_max_left 0 _, ?_⟩
    simp [set_value_clamped]

/-- C2 witness: the amended theorem at `v = 150`. -/
theorem get_gpu_usage_no_clamp_witness :
    (get_gpu_usage true
        (.ok [⟨.GpuNvidia, "Test GPU", [⟨"gpu core", .Load, some 150⟩]⟩])
        0).gpu_percent = 150 ∧
    (∀ p : ℚ, 0 ≤ set_value_clamped p ∧ set_value_clamped p ≤ 100) :=
  get_gpu_usage_no_clamp 150 0 (by norm_num)

/-- C3: for every positive elapsed time the network percentage is
`min(rate / (10 * 1024 * 1024) * 100, 100)`; and on the spec's concrete
example — previous `(sent=1000, recv=2000)` at `t=0`, current
`(sent=2000, recv=2000)` at `t=1` — the rate is `1000` bytes/s and the
percent is `1000 / (10 * 1024 * 1024) * 100`. -/
theorem netCompute_percent_formula (prev : NetCounters) (pt : ℚ)
    (curr : NetCounters) (ct : ℚ) (hdt : 0 < ct - pt) :
    (netCompute prev pt curr ct).2 =
      min ((netCompute prev pt curr ct).1 / (10 * 1024 * 1024) * 100) 100 ∧
    netCompute ⟨1000, 2000⟩ 0 ⟨2000, 2000⟩ 1 =
      (1000, 1000 / (10 * 1024 * 1024) * 100) := by
  constructor
  · simp only [netCompute, if_pos hdt]
  · rw [Prod.ext_iff]
    constructor <;> norm_num [netCompute]

/-- C3 witness: the formula theorem at the spec's concrete example. -/
theorem netCompute_percent_formula_witness :
    (netCompute ⟨1000, 2000⟩ 0 ⟨2000, 2000⟩ 1).2 =
      min ((netCompute ⟨1000, 2000⟩ 0 ⟨2000, 2000⟩ 1).1 /
        (10 * 1024 * 1024) * 100) 100 ∧
    netCompute ⟨1000, 2000⟩ 0 ⟨2000, 2000⟩ 1 =
      (1000, 1000 / (10 * 1024 * 1024) * 100) :=
  netCompute_percent_formula ⟨1000, 2000⟩ 0 ⟨2000, 2000⟩ 1 (by norm_num)

/-- C4: whenever the elapsed time is zero or negative, the network
computation reports `rate = 0` and `percent = 0`. -/
theorem netCompute_nonpos_dt (prev : NetCounters) (pt : ℚ)
    (curr : NetCounters) (ct : ℚ) (hdt : ct - pt ≤ 0) :
    netCompute prev pt curr ct = (0, 0) := by
  simp only [netCompute, if_neg (not_lt.mpr hdt)]

/-- C4 witness: two ticks at the identical timestamp. -/
theorem netCompute_nonpos_dt_witness :
    netCompute ⟨0, 0⟩ 5 ⟨100, 100⟩ 5 = (0, 0) :=
  netCompute_nonpos_dt ⟨0, 0⟩ 5 ⟨100, 100⟩ 5 (by norm_num)

/-- C5: with the hardware backend unavailable, `get_gpu_usage` returns
exactly `(min(cpu_percent * 0.3, 100), "Integrated Graphics")` for
every `cpu_percent` and every enumeration outcome; in particular
`cpu_percent = 50` yields exactly `15`. -/
theorem get_gpu_usage_heuristic (enumerated : Except Unit (List HardwareDevice))
    (c : ℚ) :
    get_gpu_usage false enumerated c =
      ⟨min (c * (3 / 10)) 100, "Integrated Graphics", false⟩ ∧
    (get_gpu_usage false enumerated 50).gpu_percent = 15 := by
  constructor
  · simp [get_gpu_usage]
  · simp [get_gpu_usage]
    norm_num

/-- C6 counterexample: on a GPU device with load sensors
`"xyz" = -20` (not keyword-matching) and `"gpu" = -10`
(keyword-matching), the maximum among the keyword-matching sensors is
`-10`, but the code's reading is `-20`: the `max`-fold starts at `0`,
stays `0` on the non-positive match, and the first-load-sensor fallback
then picks the non-matching sensor's value. -/
theorem get_gpu_usage_keyword_max_cex :
    specMaxMatching [⟨"xyz", .Load, some (-20)⟩, ⟨"gpu", .Load, some (-10)⟩] =
      some (-10) ∧
    (get_gpu_usage true
        (.ok [⟨.GpuNvidia, "Test GPU",
          [⟨"xyz", .Load, some (-20)⟩, ⟨"gpu", .Load, some (-10)⟩]⟩])
        0).gpu_percent = -20 ∧
    ((-20 : ℚ) ≠ -10) := by
  refine ⟨by decide, by decide, by norm_num⟩

/-- C6 (amended): when the maximum value among the keyword-matching
load sensors of the (sole, GPU-type) device is positive, the reading is
that maximum — not the first match in enumeration order.  (The fold
starts at `0`, so a non-positive maximum is masked and triggers the
first-load-sensor fallback instead.) -/
theorem get_gpu_usage_keyword_max (d : HardwareDevice) (c m : ℚ)
    (hgpu : isGpuType d.hwType = true)
    (hm : specMaxMatching d.sensors = some m) (hpos : 0 < m) :
    (get_gpu_usage true (.ok [d]) c).gpu_percent = m := by
  have hscan : scanSensors 0 d.sensors = m := by
    rw [scanSensors_eq_foldl,
      foldl_max_eq_max_of_max? (matchingValues d.sensors) 0 m hm]
    exact max_eq_right (le_of_lt hpos)
  have hcand : deviceCandidate 0 d.sensors = m := by
    simp [deviceCandidate, hscan, ne_of_gt hpos]
  have hloop : deviceLoop 0 "Integrated Graphics" [d] = (m, d.name) := by
    simp [deviceLoop, hgpu, hcand, hpos]
  simp [get_gpu_usage, hloop, ne_of_gt hpos]

/-- C6 witness: two keyword-matching sensors `"Core Load" = 40` and
`"Fan Speed Load" = 90` (both contain "load"); the maximum `90` wins
over the first match `40`. -/
theorem get_gpu_usage_keyword_max_witness :
    (get_gpu_usage true
        (.ok [⟨.GpuNvidia, "Test GPU",
          [⟨"Core Load", .Load, some 40⟩, ⟨"Fan Speed Load", .Load, some 90⟩]⟩])
        0).gpu_percent = 90 :=
  get_gpu_usage_keyword_max
    ⟨.GpuNvidia, "Test GPU",
      [⟨"Core Load", .Load, some 40⟩, ⟨"Fan Speed Load", .Load, some 90⟩]⟩
    0 90 (by decide) (by decide) (by norm_num)

/-- C7 counterexample: sensors `"xyz" = 30` (load, not matching) and
`"gpu" = 0` (load, keyword-matching, non-null): a sensor DID match the
keyword filter, yet the first-load-sensor fallback still applies and
the device reading becomes `30`, the first load sensor's value —
refuting "the fallback applies exactly when no sensor matched". -/
theorem first_load_fallback_cex :
    matchingValues [⟨"xyz", .Load, some 30⟩, ⟨"gpu", .Load, some 0⟩] = [0] ∧
    firstLoadValue [⟨"xyz", .Load, some 30⟩, ⟨"gpu", .Load, some 0⟩] = some 30 ∧
    (get_gpu_usage true
        (.ok [⟨.GpuNvidia, "Test GPU",
          [⟨"xyz", .Load, some 30⟩, ⟨"gpu", .Load, some 0⟩]⟩])
        0).gpu_percent = 30 := by
  refine ⟨by decide, by decide, by decide⟩

/-- C7 (amended): the first-load-sensor fallback applies exactly when
the keyword scan leaves the accumulator at `0` (no matching sensor, or
only matches with non-positive values masked by the `max`-fold from
`0`); in that case the first load-type sensor's non-null value in
backend order is used, and otherwise the keyword-scan result stands. -/
theorem first_load_fallback (sensors : List Sensor) (v : ℚ) :
    (scanSensors 0 sensors = 0 → firstLoadValue sensors = some v →
      deviceCandidate 0 sensors = v) ∧
    (scanSensors 0 sensors ≠ 0 →
      deviceCandidate 0 sensors = scanSensors 0 sensors) := by
  constructor
  · intro hscan hfirst
    simp [deviceCandidate, hscan, hfirst]
  · intro hscan
    simp [deviceCandidate, hscan]

/-- C7 witness: the amended theorem on the counterexample sensor list. -/
theorem first_load_fallback_witness :
    deviceCandidate 0 [⟨"xyz", .Load, some 30⟩, ⟨"gpu", .Load, some 0⟩] = 30 :=
  (first_load_fallback [⟨"xyz", .Load, some 30⟩, ⟨"gpu", .Load, some 0⟩] 30).1
    (by decide) (by decide)

/-- C8: when the backend raises during per-tick enumeration or sensor
reading, the exception is caught inside `get_gpu_usage`, the tick's
value is the CPU heuristic `min(cpu_percent * 0.3, 100)`, and the
availability flag is returned unchanged (`true`), so later ticks still
attempt the backend. -/
theorem get_gpu_usage_exception_isolated (c : ℚ) :
    get_gpu_usage true (.error ()) c =
      ⟨min (c * (3 / 10)) 100, "Integrated Graphics", true⟩ := by
  simp [get_gpu_usage]

/-- C9: `update_stats` never raises to its caller — it returns normally
on every input, and the error log flag is set exactly when some
sub-component of the tick raised. -/
theorem update_stats_never_raises (inp : TickInputs) (st : SamplerState) :
    (update_stats inp st).2 = true ↔
      (inp.cpu.isOk = false ∨ inp.mem.isOk = false ∨ inp.gpu.isOk = false ∨
        inp.net_current.isOk = false ∨ inp.display.isOk = false) := by
  obtain ⟨cpu, mem, gpu, t, net, disp⟩ := inp
  cases cpu <;> cases mem <;> cases gpu <;> cases net <;> cases disp <;>
    simp [update_stats, update_stats_try, Except.isOk, Except.toBool]

/-- C10: on every tick whose sub-component reads all return normally,
the stored previous counters and timestamp are unconditionally
overwritten with the just-read current values — whatever the elapsed
time, including zero or negative. -/
theorem update_stats_overwrites_state (inp : TickInputs) (st : SamplerState)
    (nc : NetCounters) (hcpu : inp.cpu.isOk = true) (hmem : inp.mem.isOk = true)
    (hgpu : inp.gpu.isOk = true) (hnet : inp.net_current = .ok nc) :
    (update_stats inp st).1 = ⟨nc, inp.current_time⟩ := by
  obtain ⟨cpu, mem, gpu, t, net, disp⟩ := inp
  cases cpu <;> cases mem <;> cases gpu <;> cases net <;> cases disp <;>
    simp_all [update_stats, update_stats_try, Except.isOk, Except.toBool]

/-- C10 witness: a tick with negative elapsed time (current time `0`,
previous time `5`) still overwrites the stored counters and time. -/
theorem update_stats_overwrites_state_witness :
    (update_stats
        ⟨.ok 10, .ok ⟨40, 8⟩, .ok (5, "G"), 0, .ok ⟨7, 9⟩, .ok ()⟩
        ⟨⟨1, 2⟩, 5⟩).1 = ⟨⟨7, 9⟩, 0⟩ :=
  update_stats_overwrites_state
    ⟨.ok 10, .ok ⟨40, 8⟩, .ok (5, "G"), 0, .ok ⟨7, 9⟩, .ok ()⟩
    ⟨⟨1, 2⟩, 5⟩ ⟨7, 9⟩ rfl rfl rfl rfl

end CJResourceMonitor
